import Mathlib

/-!
Verification of the AI App UI Mockup Generator orchestration layer
(`services/geminiService.ts` and the `handleGenerate` callback of `App.tsx`).

The external generative-model API is opaque: every network interaction is
modelled by an explicit response value passed in as an argument.  A call that
rejects (network failure, or a malformed body that `JSON.parse` refuses) is an
`Except.error`; a call that fulfills is `Except.ok` carrying the decoded body.
All control flow, validation and string assembly after the response arrives is
translated directly from the TypeScript source.
-/

namespace Mockup

/-- `true` exactly on the rejected (`Except.error`) branch of a settled call. -/
def isErr {ε α : Type} : Except ε α → Bool
  | .error _ => true
  | .ok _ => false

/-! ## Data model (`types.ts`) -/

/-- `ColorPalette` from `types.ts`: three hex color strings. -/
structure ColorPalette where
  primary : String
  secondary : String
  accent : String
  deriving Repr, DecidableEq

/-- The `code` record nested in `GeneratedScreen`. -/
structure ScreenCode where
  react : String
  flutter : String
  deriving Repr, DecidableEq

/-- `GeneratedScreen` from `types.ts`. -/
structure GeneratedScreen where
  title : String
  imageUrl : String
  code : ScreenCode
  deriving Repr, DecidableEq

/-- `GenerateAppScreensResult` from `types.ts`. -/
structure GenerateAppScreensResult where
  successfulScreens : List GeneratedScreen
  failedScreenReasons : List String
  deriving Repr, DecidableEq

/-! ## Hex color validation (`generateColorPalette`) -/

/-- One character of `[0-9A-F]` with the `i` flag, i.e. a hex digit of either
case. -/
def isHexDigitCI (c : Char) : Bool :=
  (Char.ofNat 48 ≤ c && c ≤ Char.ofNat 57) ||
  (Char.ofNat 65 ≤ c && c ≤ Char.ofNat 70) ||
  (Char.ofNat 97 ≤ c && c ≤ Char.ofNat 102)

/-- The regex `/^#[0-9A-F]{6}$/i` used by `generateColorPalette`. -/
def isValidHex (s : String) : Bool :=
  match s.data with
  | c :: rest => c = Char.ofNat 35 && rest.length = 6 && rest.all isHexDigitCI
  | [] => false

/-- `generateColorPalette`: the response either rejects / fails to parse
(`Except.error`) or yields the parsed palette object.  All three fields must
match the hex regex; any failure inside the `try` is rethrown as the single
generic palette error. -/
def generateColorPalette (resp : Except String ColorPalette) : Except String ColorPalette :=
  match resp with
  | .error _ => .error "Failed to generate a valid color palette from the AI."
  | .ok palette =>
    if isValidHex palette.primary && isValidHex palette.secondary && isValidHex palette.accent then
      .ok palette
    else
      .error "Failed to generate a valid color palette from the AI."

/-! ## Screen-name extraction (`extractScreenNames`) -/

/-- `extractScreenNames`: a rejected or unparseable response becomes the
rephrasing error; a parsed body may lack the `screens` array (`none`), in which
case `jsonResponse.screens || []` yields the empty list. -/
def extractScreenNames (resp : Except String (Option (List String))) : Except String (List String) :=
  match resp with
  | .error _ => .error "Failed to parse app description. Please try rephrasing your idea."
  | .ok none => .ok []
  | .ok (some screens) => .ok screens

/-! ## Model responses carrying image parts -/

/-- The `inlineData` field of a response part. -/
structure InlineData where
  data : String
  deriving Repr, DecidableEq

/-- One part of a model response; `inlineData` may be absent. -/
structure ModelPart where
  inlineData : Option InlineData
  deriving Repr, DecidableEq

/-- The `content` of a candidate; its `parts` array may be absent. -/
structure ModelContent where
  parts : Option (List ModelPart)
  deriving Repr, DecidableEq

/-- One candidate of a model response; its `content` may be absent. -/
structure ModelCandidate where
  content : Option ModelContent
  deriving Repr, DecidableEq

/-- A model response for an image request; the `candidates` array may be
absent. -/
structure ModelResponse where
  candidates : Option (List ModelCandidate)
  deriving Repr, DecidableEq

/-- The optional chain `response.candidates?.[0]?.content?.parts?.[0]` followed
by the `firstPart && firstPart.inlineData` truthiness test: the base64 data of
the first part of the first candidate, when every link is present. -/
def firstInlineData (r : ModelResponse) : Option String :=
  match r.candidates with
  | some (c :: _) =>
    match c.content with
    | some ct =>
      match ct.parts with
      | some (p :: _) =>
        match p.inlineData with
        | some d => some d.data
        | none => none
      | some [] => none
      | none => none
    | none => none
  | some [] => none
  | none => none

/-- `generateScreenImage`: on inline data, a PNG data URL; otherwise (missing
data or a rejected call) the screen-specific failure rethrown by the `catch`. -/
def generateScreenImage (screenName : String) (resp : Except String ModelResponse) :
    Except String String :=
  match resp with
  | .error _ => .error ("Failed to generate UI for " ++ screenName ++ ".")
  | .ok r =>
    match firstInlineData r with
    | some base64ImageBytes => .ok ("data:image/png;base64," ++ base64ImageBytes)
    | none => .error ("Failed to generate UI for " ++ screenName ++ ".")

/-- `generateLogo`: same shape as `generateScreenImage` with logo-specific
messages. -/
def generateLogo (resp : Except String ModelResponse) : Except String String :=
  match resp with
  | .error _ => .error "Failed to generate a logo for the app."
  | .ok r =>
    match firstInlineData r with
    | some base64ImageBytes => .ok ("data:image/png;base64," ++ base64ImageBytes)
    | none => .error "Failed to generate a logo for the app."

/-! ## Code generation (`generateScreenCodeReact`, `generateScreenCodeFlutter`) -/

/-- One step list of the global replace `/\x60\x60\x60tag|\x60\x60\x60/g → ""`:
left to right, at each position first try the tagged fence, then the bare
fence, else keep the character.  The `fuel` argument only makes the recursion
structural; every step consumes at least one character, so starting `fuel` at
the list's length never exhausts it. -/
def stripFenceAux (tag : List Char) : Nat → List Char → List Char
  | 0, l => l
  | _ + 1, [] => []
  | fuel + 1, c :: cs =>
    if List.isPrefixOf (Char.ofNat 96 :: Char.ofNat 96 :: Char.ofNat 96 :: tag) (c :: cs) then
      stripFenceAux tag fuel (cs.drop (tag.length + 2))
    else if List.isPrefixOf [Char.ofNat 96, Char.ofNat 96, Char.ofNat 96] (c :: cs) then
      stripFenceAux tag fuel (cs.drop 2)
    else
      c :: stripFenceAux tag fuel cs

/-- The fence replace on a character list. -/
def stripFenceList (tag l : List Char) : List Char :=
  stripFenceAux tag l.length l

/-- `text.replace(/\x60\x60\x60tag|\x60\x60\x60/g, "")` on strings. -/
def stripFences (tag s : String) : String :=
  ⟨stripFenceList tag.data s.data⟩

/-- JavaScript `String.prototype.split` with a single-character separator, on
character lists: always at least one segment, empty segments kept. -/
def splitCharList (sep : Char) : List Char → List (List Char)
  | [] => [[]]
  | c :: cs =>
    if c = sep then [] :: splitCharList sep cs
    else
      match splitCharList sep cs with
      | [] => [[c]]
      | h :: t => (c :: h) :: t

/-- JavaScript `s.split(sep)` for a single-character separator. -/
def jsSplit (sep : Char) (s : String) : List String :=
  (splitCharList sep s.data).map String.mk

/-- JavaScript `String.prototype.trim` (on the whitespace the repository can
produce). -/
def jsTrim (s : String) : String :=
  ⟨((s.data.dropWhile Char.isWhitespace).reverse.dropWhile Char.isWhitespace).reverse⟩

/-- `response.text.replace(...).trim()`: fence stripping then trim. -/
def cleanCode (tag text : String) : String :=
  jsTrim (stripFences tag text)

/-- `screenName.replace(/[^a-zA-Z0-9]/g, "")`. -/
def sanitizeComponentName (screenName : String) : String :=
  ⟨screenName.data.filter Char.isAlphanum⟩

/-- `rawCode.split("\n").map(line => "    " + line).join("\n")`. -/
def indentLines (rawCode : String) : String :=
  String.intercalate "\n" ((jsSplit '\n' rawCode).map (fun line => "    " ++ line))

/-- The template literal returned by `generateScreenCodeReact`. -/
def buildReactComponent (componentName rawCode : String) : String :=
  "import React from \x27react\x27;\n\nconst " ++ componentName ++
    " = () => \x7b\n  return (\n" ++ indentLines rawCode ++
    "\n  );\n\x7d;\n\nexport default " ++ componentName ++ ";\n"

/-- `generateScreenCodeReact`: strip `jsx` fences and trim; reject empty or
shorter-than-50 code; otherwise wrap in the import/component template.  Any
failure becomes the screen-specific React error. -/
def generateScreenCodeReact (screenName : String) (resp : Except String String) :
    Except String String :=
  match resp with
  | .error _ => .error ("Failed to generate React code for \"" ++ screenName ++ "\".")
  | .ok text =>
    let rawCode := cleanCode "jsx" text
    if rawCode = "" ∨ rawCode.length < 50 then
      .error ("Failed to generate React code for \"" ++ screenName ++ "\".")
    else
      .ok (buildReactComponent (sanitizeComponentName screenName) rawCode)

/-- The template literal returned by `generateScreenCodeFlutter`. -/
def buildFlutterWidget (rawCode : String) : String :=
  "import \x27package:flutter/material.dart\x27;\n\n" ++ rawCode ++ "\n"

/-- `generateScreenCodeFlutter`: strip `dart` fences and trim; reject empty or
shorter-than-50 code; otherwise prepend the material import.  Any failure
becomes the screen-specific Flutter error. -/
def generateScreenCodeFlutter (screenName : String) (resp : Except String String) :
    Except String String :=
  match resp with
  | .error _ => .error ("Failed to generate Flutter code for \"" ++ screenName ++ "\".")
  | .ok text =>
    let rawCode := cleanCode "dart" text
    if rawCode = "" ∨ rawCode.length < 50 then
      .error ("Failed to generate Flutter code for \"" ++ screenName ++ "\".")
    else
      .ok (buildFlutterWidget rawCode)

/-! ## Image editing (`editImage`) -/

/-- `editImage`: `base64ImageData.split(",")[1]` must be a present, non-empty
payload before any model request is issued; then the same inline-data check as
the other image operations. -/
def editImage (base64ImageData : String) (resp : Except String ModelResponse) :
    Except String String :=
  match (jsSplit ',' base64ImageData)[1]? with
  | none => .error "Invalid base64 image data provided."
  | some pureBase64 =>
    if pureBase64 = "" then
      .error "Invalid base64 image data provided."
    else
      match resp with
      | .error _ => .error "Failed to edit the image with the provided prompt."
      | .ok r =>
        match firstInlineData r with
        | some base64ImageBytes => .ok ("data:image/png;base64," ++ base64ImageBytes)
        | none => .error "Failed to edit the image with the provided prompt."

/-! ## Batch orchestration (`generateAppScreens`) -/

/-- The three settled network responses behind one screen's `Promise.all`:
the mockup-image call and the two code calls. -/
structure ScreenResponses where
  image : Except String ModelResponse
  react : Except String String
  flutter : Except String String

/-- One screen's promise: `Promise.all` of the image and the two code
generators, assembling the screen record when all three fulfill and rejecting
with a single reason when any rejects. -/
def generateScreen (name : String) (r : ScreenResponses) : Except String GeneratedScreen :=
  match generateScreenImage name r.image with
  | .error e => .error e
  | .ok imageUrl =>
    match generateScreenCodeReact name r.react with
    | .error e => .error e
    | .ok reactCode =>
      match generateScreenCodeFlutter name r.flutter with
      | .error e => .error e
      | .ok flutterCode => .ok ⟨name, imageUrl, ⟨reactCode, flutterCode⟩⟩

/-- `screenNames.map(name => ...)` with the call environment indexed by the
position of the name in the list, starting at `i`. -/
def screenResultsFrom (calls : Nat → ScreenResponses) : Nat → List String →
    List (Except String GeneratedScreen)
  | _, [] => []
  | i, name :: rest => generateScreen name (calls i) :: screenResultsFrom calls (i + 1) rest

/-- The `results.forEach` loop over `Promise.allSettled`'s outcomes: fulfilled
values are pushed onto `successfulScreens`, rejection reasons (with the
fallback for an empty message) onto `failedScreenReasons`, preserving order. -/
def collectResults : List (Except String GeneratedScreen) → GenerateAppScreensResult
  | [] => ⟨[], []⟩
  | r :: rs =>
    let rest := collectResults rs
    match r with
    | .ok s => ⟨s :: rest.successfulScreens, rest.failedScreenReasons⟩
    | .error m =>
      ⟨rest.successfulScreens,
        (if m = "" then "An unknown screen generation error occurred." else m) ::
          rest.failedScreenReasons⟩

/-- The guidance message thrown by `generateAppScreens` when no screen name
was extracted. -/
def noScreensMessage : String :=
  "Could not identify any screens from your description. " ++
    "Please be more specific about the pages you need, e.g., " ++
    "\x27login page\x27, \x27dashboard\x27."

/-- `generateAppScreens`: extract the screen names, fail fast on an empty
list, then fan out per-screen generation and collect settled outcomes. -/
def generateAppScreens (extractResp : Except String (Option (List String)))
    (calls : Nat → ScreenResponses) : Except String GenerateAppScreensResult :=
  match extractScreenNames extractResp with
  | .error e => .error e
  | .ok screenNames =>
    if screenNames.isEmpty then
      .error noScreensMessage
    else
      .ok (collectResults (screenResultsFrom calls 0 screenNames))

/-- The set of (zero-based) screen indices, offset by `i`, whose
`Promise.all` rejects — i.e. at least one of the screen's three requests
rejects. -/
def failedIdx (calls : Nat → ScreenResponses) : Nat → List String → List Nat
  | _, [] => []
  | i, name :: rest =>
    (if isErr (generateScreen name (calls i)) then [i] else []) ++ failedIdx calls (i + 1) rest

/-! ## The UI callback (`handleGenerate` in `App.tsx`) -/

/-- What `handleGenerate` leaves behind: the screens put into React state for
display, the logo URL, and the notifications raised (message, `isError`). -/
structure UIOutcome where
  displayedScreens : List GeneratedScreen
  logoUrl : Option String
  notifications : List (String × Bool)
  deriving Repr, DecidableEq

/-- The aggregate error thrown by `handleGenerate` when no screen succeeded
but failures were reported. -/
def aggregateFailureMessage : String :=
  "Failed to generate any screens. Please try refining your prompt."

/-- `handleGenerate` after the palette/prompt guards: awaits
`Promise.all([generateAppScreens ..., generateLogo ...])`; on rejection of
either, nothing is displayed and the rejection message is shown as an error
toast; on fulfillment, successes are displayed, a success toast and a
partial-failure toast are raised as applicable, and a zero-success non-empty
failure batch additionally throws the aggregate error into the `catch`. -/
def handleGenerate (screenRes : Except String GenerateAppScreensResult)
    (logoRes : Except String String) : UIOutcome :=
  match screenRes with
  | .error e =>
    ⟨[], none,
      [(if e = "" then "An unknown error occurred during generation." else e, true)]⟩
  | .ok screenResult =>
    match logoRes with
    | .error e =>
      ⟨[], none,
        [(if e = "" then "An unknown error occurred during generation." else e, true)]⟩
    | .ok logoUrl =>
      let successToasts :=
        if screenResult.successfulScreens.length > 0 then
          [("Successfully generated " ++ toString screenResult.successfulScreens.length ++
            " screen(s)!", false)]
        else []
      let failureToasts :=
        if screenResult.failedScreenReasons.length > 0 then
          [("Could not generate some screens: " ++
            String.intercalate ", " (screenResult.failedScreenReasons.take 2), true)]
        else []
      let aggregateToasts :=
        if screenResult.successfulScreens.length = 0 ∧
            screenResult.failedScreenReasons.length > 0 then
          [(aggregateFailureMessage, true)]
        else []
      ⟨screenResult.successfulScreens, some logoUrl,
        successToasts ++ failureToasts ++ aggregateToasts⟩

/-! ## Concrete inputs used by the witnesses -/

/-- A palette whose three fields all match the hex regex. -/
def exGoodPalette : ColorPalette := ⟨"#A78BFA", "#2DD4BF", "#F59E0B"⟩

/-- A palette whose primary field fails the hex regex. -/
def exBadPalette : ColorPalette := ⟨"#GGGGGG", "#2DD4BF", "#F59E0B"⟩

/-- A response whose first candidate's first part carries inline image data. -/
def exGoodImageResponse : ModelResponse := ⟨some [⟨some ⟨some [⟨some ⟨"QUJD"⟩⟩]⟩⟩]⟩

/-- A response with an empty candidate list: no inline data anywhere. -/
def exEmptyResponse : ModelResponse := ⟨some []⟩

/-- Sixty characters of raw model code, comfortably past the 50-character
minimum. -/
def exLongRaw : String := String.mk (List.replicate 60 'a')

/-- A fenced model reply for the React generator. -/
def exReactText : String := "\x60\x60\x60jsx\n" ++ exLongRaw ++ "\n\x60\x60\x60"

/-- The React component the program assembles from `exReactText`. -/
def exReactCode : String :=
  buildReactComponent (sanitizeComponentName "Login Screen") (cleanCode "jsx" exReactText)

/-- A fenced model reply for the Flutter generator. -/
def exFlutterText : String := "\x60\x60\x60dart\n" ++ exLongRaw ++ "\n\x60\x60\x60"

/-- The Flutter widget the program assembles from `exFlutterText`. -/
def exFlutterCode : String := buildFlutterWidget (cleanCode "dart" exFlutterText)

/-- A screen whose three calls all reject. -/
def exRejectCalls : ScreenResponses := ⟨.error "network", .error "network", .error "network"⟩

/-- A screen whose three calls all fulfill with valid bodies. -/
def exOkCalls : ScreenResponses :=
  ⟨.ok exGoodImageResponse, .ok exReactText, .ok exFlutterText⟩

/-- A two-screen batch name list. -/
def wNames : List String := ["Splash Screen", "Login Screen"]

/-- A call environment where every screen's calls fulfill. -/
def wCallsAllOk : Nat → ScreenResponses := fun _ => exOkCalls

/-- A call environment where exactly the second screen's calls reject. -/
def wCallsOneFail : Nat → ScreenResponses := fun i => if i = 1 then exRejectCalls else exOkCalls

/-- A call environment where every screen's calls reject. -/
def wCallsAllFail : Nat → ScreenResponses := fun _ => exRejectCalls

/-- A concrete successful screen record. -/
def wScreen : GeneratedScreen :=
  ⟨"Splash Screen", "data:image/png;base64,QUJD", ⟨"reactCode", "flutterCode"⟩⟩

/-! ## Helper lemmas about the fan-out/fan-in -/

@[simp] theorem isErr_error {ε α : Type} (e : ε) : isErr (α := α) (.error e) = true := rfl

@[simp] theorem isErr_ok {ε α : Type} (a : α) : isErr (ε := ε) (.ok a) = false := rfl

@[simp] theorem collectResults_nil : collectResults [] = ⟨[], []⟩ := rfl

@[simp] theorem collectResults_cons_ok (s : GeneratedScreen)
    (rs : List (Except String GeneratedScreen)) :
    collectResults (.ok s :: rs) =
      ⟨s :: (collectResults rs).successfulScreens, (collectResults rs).failedScreenReasons⟩ := rfl

@[simp] theorem collectResults_cons_error (m : String)
    (rs : List (Except String GeneratedScreen)) :
    collectResults (.error m :: rs) =
      ⟨(collectResults rs).successfulScreens,
        (if m = "" then "An unknown screen generation error occurred." else m) ::
          (collectResults rs).failedScreenReasons⟩ := rfl

@[simp] theorem screenResultsFrom_nil (calls : Nat → ScreenResponses) (i : Nat) :
    screenResultsFrom calls i [] = [] := rfl

@[simp] theorem screenResultsFrom_cons (calls : Nat → ScreenResponses) (i : Nat)
    (n : String) (rest : List String) :
    screenResultsFrom calls i (n :: rest) =
      generateScreen n (calls i) :: screenResultsFrom calls (i + 1) rest := rfl

@[simp] theorem failedIdx_nil (calls : Nat → ScreenResponses) (i : Nat) :
    failedIdx calls i [] = [] := rfl

@[simp] theorem failedIdx_cons (calls : Nat → ScreenResponses) (i : Nat)
    (n : String) (rest : List String) :
    failedIdx calls i (n :: rest) =
      (if isErr (generateScreen n (calls i)) then [i] else []) ++
        failedIdx calls (i + 1) rest := rfl

/-- Every screen is accounted for: successes and failures together count the
settled results. -/
theorem collectResults_length (rs : List (Except String GeneratedScreen)) :
    (collectResults rs).successfulScreens.length +
      (collectResults rs).failedScreenReasons.length = rs.length := by
  induction rs with
  | nil => rfl
  | cons r rs ih => cases r <;> simp <;> omega

/-- One failure reason is recorded per rejected screen promise. -/
theorem collectResults_failed_length (rs : List (Except String GeneratedScreen)) :
    (collectResults rs).failedScreenReasons.length = rs.countP isErr := by
  induction rs with
  | nil => rfl
  | cons r rs ih => cases r <;> simp [List.countP_cons, ih]

theorem screenResultsFrom_length (calls : Nat → ScreenResponses) :
    ∀ (ns : List String) (i : Nat), (screenResultsFrom calls i ns).length = ns.length := by
  intro ns
  induction ns with
  | nil => intro i; rfl
  | cons n rest ih => intro i; simp [ih]

/-- `failedIdx` has one entry per rejected screen promise. -/
theorem failedIdx_length (calls : Nat → ScreenResponses) :
    ∀ (ns : List String) (i : Nat),
      (failedIdx calls i ns).length = (screenResultsFrom calls i ns).countP isErr := by
  intro ns
  induction ns with
  | nil => intro i; rfl
  | cons n rest ih =>
    intro i
    cases h : isErr (generateScreen n (calls i)) <;>
      simp [List.countP_cons, h, ih (i + 1)]

/-- A screen whose index is not among the failed indices fulfills, and its
record survives into the successes. -/
theorem mem_successes_of_not_failed (calls : Nat → ScreenResponses) :
    ∀ (ns : List String) (i j : Nat) (h : j < ns.length),
      (i + j) ∉ failedIdx calls i ns →
      ∃ rec, generateScreen (ns.get ⟨j, h⟩) (calls (i + j)) = .ok rec ∧
        rec ∈ (collectResults (screenResultsFrom calls i ns)).successfulScreens := by
  intro ns
  induction ns with
  | nil => intro i j h; exact absurd h (by simp)
  | cons n rest ih =>
    intro i j h hnot
    cases j with
    | zero =>
      cases hok : generateScreen n (calls i) with
      | error e =>
        exact absurd (by simp [hok] : i + 0 ∈ failedIdx calls i (n :: rest)) hnot
      | ok rec => exact ⟨rec, by simpa using hok, by simp [hok]⟩
    | succ j' =>
      have h' : j' < rest.length := by simpa using Nat.lt_of_succ_lt_succ h
      have heq : i + (j' + 1) = (i + 1) + j' := by omega
      have hnot' : (i + 1) + j' ∉ failedIdx calls (i + 1) rest := by
        intro hm
        exact hnot (by simp [heq]; exact Or.inr hm)
      obtain ⟨rec, hgen, hmem⟩ := ih (i + 1) j' h' hnot'
      refine ⟨rec, ?_, ?_⟩
      · rw [heq]; simpa using hgen
      · cases hh : generateScreen n (calls i) with
        | ok s => simp [hh]; exact Or.inr hmem
        | error m => simpa [hh] using hmem

/-- When every screen promise fulfills, the collected results keep all records
in input order and report no failure. -/
theorem collect_all_ok (calls : Nat → ScreenResponses) :
    ∀ (ns : List String) (i : Nat),
      (∀ j (h : j < ns.length),
        isErr (generateScreen (ns.get ⟨j, h⟩) (calls (i + j))) = false) →
      (collectResults (screenResultsFrom calls i ns)).failedScreenReasons = [] ∧
      (collectResults (screenResultsFrom calls i ns)).successfulScreens.length = ns.length ∧
      ∀ j (h : j < ns.length)
        (h2 : j < (collectResults (screenResultsFrom calls i ns)).successfulScreens.length),
        generateScreen (ns.get ⟨j, h⟩) (calls (i + j)) =
          .ok ((collectResults (screenResultsFrom calls i ns)).successfulScreens.get ⟨j, h2⟩) := by
  intro ns
  induction ns with
  | nil =>
    intro i _
    exact ⟨rfl, rfl, fun j h => absurd h (by simp)⟩
  | cons n rest ih =>
    intro i hok
    have h0 : isErr (generateScreen n (calls i)) = false := by
      simpa using hok 0 (by simp)
    obtain ⟨rec, hrec⟩ : ∃ rec, generateScreen n (calls i) = .ok rec := by
      cases hg : generateScreen n (calls i) with
      | error e => rw [hg] at h0; simp at h0
      | ok s => exact ⟨s, rfl⟩
    have hokRest : ∀ j (h : j < rest.length),
        isErr (generateScreen (rest.get ⟨j, h⟩) (calls ((i + 1) + j))) = false := by
      intro j h
      have heq : i + (j + 1) = (i + 1) + j := by omega
      simpa [heq] using hok (j + 1) (Nat.succ_lt_succ h)
    obtain ⟨ih1, ih2, ih3⟩ := ih (i + 1) hokRest
    refine ⟨by simp [hrec, ih1], by simp [hrec, ih2], ?_⟩
    intro j h h2
    cases j with
    | zero => simp [hrec]
    | succ j' =>
      have h' : j' < rest.length := by simpa using Nat.lt_of_succ_lt_succ h
      have heq : i + (j' + 1) = (i + 1) + j' := by omega
      have h2' : j' <
          (collectResults (screenResultsFrom calls (i + 1) rest)).successfulScreens.length := by
        have := h2
        simp [hrec] at this
        exact Nat.lt_of_succ_lt_succ (by simpa using this)
      rw [heq]
      simpa [hrec] using ih3 j' h' h2'

/-- When every screen promise rejects, every settled result is an error. -/
theorem screenResultsFrom_all_err (calls : Nat → ScreenResponses) :
    ∀ (ns : List String) (i : Nat),
      (∀ j (h : j < ns.length),
        isErr (generateScreen (ns.get ⟨j, h⟩) (calls (i + j))) = true) →
      ∀ r ∈ screenResultsFrom calls i ns, isErr r = true := by
  intro ns
  induction ns with
  | nil => intro i _ r hr; simp at hr
  | cons n rest ih =>
    intro i hall r hr
    simp at hr
    rcases hr with hr | hr
    · subst hr; simpa using hall 0 (by simp)
    · refine ih (i + 1) ?_ r hr
      intro j h
      have heq : i + (j + 1) = (i + 1) + j := by omega
      simpa [heq] using hall (j + 1) (Nat.succ_lt_succ h)

/-- All-error results collect to an empty success list. -/
theorem collect_all_err (rs : List (Except String GeneratedScreen))
    (h : ∀ r ∈ rs, isErr r = true) :
    (collectResults rs).successfulScreens = [] := by
  induction rs with
  | nil => rfl
  | cons r rs ih =>
    cases r with
    | ok s =>
      have := h (Except.ok s) (by simp)
      simp at this
    | error m => simpa using ih (fun r hr => h r (by simp [hr]))

/-- With a non-empty name list, `generateAppScreens` fulfills with the
collected per-screen outcomes. -/
theorem generateAppScreens_ok (names : List String) (calls : Nat → ScreenResponses)
    (hne : names ≠ []) :
    generateAppScreens (.ok (some names)) calls =
      .ok (collectResults (screenResultsFrom calls 0 names)) := by
  have h : names.isEmpty = false := by
    cases names with
    | nil => exact absurd rfl hne
    | cons a l => rfl
  simp [generateAppScreens, extractScreenNames, h]

/-- A fulfilled screen promise carries the screen's own title and exactly the
three generators' outputs. -/
theorem generateScreen_ok_elim (name : String) (r : ScreenResponses) (rec : GeneratedScreen)
    (h : generateScreen name r = .ok rec) :
    rec.title = name ∧ generateScreenImage name r.image = .ok rec.imageUrl ∧
    generateScreenCodeReact name r.react = .ok rec.code.react ∧
    generateScreenCodeFlutter name r.flutter = .ok rec.code.flutter := by
  cases h1 : generateScreenImage name r.image with
  | error e => simp [generateScreen, h1] at h
  | ok u =>
    cases h2 : generateScreenCodeReact name r.react with
    | error e => simp [generateScreen, h1, h2] at h
    | ok rc =>
      cases h3 : generateScreenCodeFlutter name r.flutter with
      | error e => simp [generateScreen, h1, h2, h3] at h
      | ok fc =>
        have hrec : rec = ⟨name, u, ⟨rc, fc⟩⟩ := by
          apply Except.ok.inj
          rw [← h]
          simp [generateScreen, h1, h2, h3]
        subst hrec
        simp [h1, h2, h3]

/-! ## C4, C5, C6, C7, C9, C10 -/

/-- C4: whenever screen-name extraction yields the empty list — including a
body that parsed as JSON but lacked a `screens` array — `generateAppScreens`
throws the guidance message, for every per-screen call environment, so no
per-screen generation call is consulted. -/
theorem generateAppScreens_empty_extraction_fails_fast :
    (∀ (resp : Except String (Option (List String))) (calls : Nat → ScreenResponses),
      extractScreenNames resp = .ok [] →
      generateAppScreens resp calls = .error noScreensMessage) ∧
    extractScreenNames (.ok none) = .ok [] := by
  constructor
  · intro resp calls h
    simp [generateAppScreens, h]
  · rfl

/-- Witness for C4 at the response that parses but lacks a `screens` array. -/
theorem generateAppScreens_empty_extraction_fails_fast_witness :
    extractScreenNames (.ok none) = .ok [] ∧
    generateAppScreens (.ok none) (fun _ => exRejectCalls) = .error noScreensMessage :=
  ⟨rfl, generateAppScreens_empty_extraction_fails_fast.1 (.ok none) (fun _ => exRejectCalls) rfl⟩

/-- C5: `generateColorPalette` never returns a malformed palette — every
palette it returns has all three fields matching the hex regex, and a parsed
palette with any field failing the regex is turned into an error. -/
theorem generateColorPalette_hex_validation :
    (∀ (resp : Except String ColorPalette) (p : ColorPalette),
      generateColorPalette resp = .ok p →
      isValidHex p.primary = true ∧ isValidHex p.secondary = true ∧
        isValidHex p.accent = true) ∧
    (∀ pal : ColorPalette,
      ¬(isValidHex pal.primary = true ∧ isValidHex pal.secondary = true ∧
        isValidHex pal.accent = true) →
      generateColorPalette (.ok pal) =
        .error "Failed to generate a valid color palette from the AI.") := by
  constructor
  · intro resp p hp
    cases resp with
    | error e => simp [generateColorPalette] at hp
    | ok pal =>
      by_cases hc :
          (isValidHex pal.primary && isValidHex pal.secondary && isValidHex pal.accent) = true
      · have hpal : pal = p := by simpa [generateColorPalette, hc] using hp
        subst hpal
        simpa [Bool.and_eq_true, and_assoc] using hc
      · simp [generateColorPalette, hc] at hp
  · intro pal hbad
    have hc :
        ¬(isValidHex pal.primary && isValidHex pal.secondary && isValidHex pal.accent) = true := by
      intro hc
      exact hbad (by simpa [Bool.and_eq_true, and_assoc] using hc)
    simp [generateColorPalette, hc]

/-- Witness for C5 at a well-formed palette and at one with a bad primary. -/
theorem generateColorPalette_hex_validation_witness :
    (generateColorPalette (.ok exGoodPalette) = .ok exGoodPalette ∧
      isValidHex exGoodPalette.primary = true ∧ isValidHex exGoodPalette.secondary = true ∧
      isValidHex exGoodPalette.accent = true) ∧
    (¬(isValidHex exBadPalette.primary = true ∧ isValidHex exBadPalette.secondary = true ∧
        isValidHex exBadPalette.accent = true) ∧
      generateColorPalette (.ok exBadPalette) =
        .error "Failed to generate a valid color palette from the AI.") :=
  ⟨⟨rfl, generateColorPalette_hex_validation.1 (.ok exGoodPalette) exGoodPalette rfl⟩,
   ⟨by decide, generateColorPalette_hex_validation.2 exBadPalette (by decide)⟩⟩

/-- C6: for both code generators, a fulfilled response whose fence-stripped,
trimmed text is empty or shorter than 50 characters is rejected, and the
failure message embeds the specific screen name. -/
theorem generateScreenCode_short_code_rejected (screenName text : String)
    (hjsx : cleanCode "jsx" text = "" ∨ (cleanCode "jsx" text).length < 50)
    (hdart : cleanCode "dart" text = "" ∨ (cleanCode "dart" text).length < 50) :
    generateScreenCodeReact screenName (.ok text) =
      .error ("Failed to generate React code for \"" ++ screenName ++ "\".") ∧
    generateScreenCodeFlutter screenName (.ok text) =
      .error ("Failed to generate Flutter code for \"" ++ screenName ++ "\".") ∧
    (∃ pre post,
      "Failed to generate React code for \"" ++ screenName ++ "\"." =
        pre ++ screenName ++ post) ∧
    (∃ pre post,
      "Failed to generate Flutter code for \"" ++ screenName ++ "\"." =
        pre ++ screenName ++ post) := by
  refine ⟨?_, ?_, ⟨"Failed to generate React code for \"", "\".", rfl⟩,
    ⟨"Failed to generate Flutter code for \"", "\".", rfl⟩⟩
  · simp only [generateScreenCodeReact]
    rw [if_pos hjsx]
  · simp only [generateScreenCodeFlutter]
    rw [if_pos hdart]

/-- Witness for C6 at the reply `"short"` for the screen `"Login"`. -/
theorem generateScreenCode_short_code_rejected_witness :
    (cleanCode "jsx" "short" = "" ∨ (cleanCode "jsx" "short").length < 50) ∧
    (cleanCode "dart" "short" = "" ∨ (cleanCode "dart" "short").length < 50) ∧
    (generateScreenCodeReact "Login" (.ok "short") =
      .error ("Failed to generate React code for \"" ++ "Login" ++ "\".") ∧
    generateScreenCodeFlutter "Login" (.ok "short") =
      .error ("Failed to generate Flutter code for \"" ++ "Login" ++ "\".") ∧
    (∃ pre post,
      "Failed to generate React code for \"" ++ "Login" ++ "\"." = pre ++ "Login" ++ post) ∧
    (∃ pre post,
      "Failed to generate Flutter code for \"" ++ "Login" ++ "\"." = pre ++ "Login" ++ post)) :=
  ⟨by decide, by decide,
    generateScreenCode_short_code_rejected "Login" "short" (by decide) (by decide)⟩

/-- C7: each image-producing operation fails with its operation-specific
message when the first candidate's first part holds no inline data, and wraps
the inline bytes in a PNG data URL when it does. -/
theorem imageOps_inlineData_contract :
    (∀ (screenName : String) (r : ModelResponse), firstInlineData r = none →
      generateScreenImage screenName (.ok r) =
        .error ("Failed to generate UI for " ++ screenName ++ ".")) ∧
    (∀ (screenName d : String) (r : ModelResponse), firstInlineData r = some d →
      generateScreenImage screenName (.ok r) = .ok ("data:image/png;base64," ++ d)) ∧
    (∀ r : ModelResponse, firstInlineData r = none →
      generateLogo (.ok r) = .error "Failed to generate a logo for the app.") ∧
    (∀ (d : String) (r : ModelResponse), firstInlineData r = some d →
      generateLogo (.ok r) = .ok ("data:image/png;base64," ++ d)) ∧
    (∀ (s payload : String) (r : ModelResponse),
      (jsSplit ',' s)[1]? = some payload → payload ≠ "" → firstInlineData r = none →
      editImage s (.ok r) = .error "Failed to edit the image with the provided prompt.") ∧
    (∀ (s payload d : String) (r : ModelResponse),
      (jsSplit ',' s)[1]? = some payload → payload ≠ "" → firstInlineData r = some d →
      editImage s (.ok r) = .ok ("data:image/png;base64," ++ d)) := by
  refine ⟨?_, ?_, ?_, ?_, ?_, ?_⟩
  · intro screenName r h; simp [generateScreenImage, h]
  · intro screenName d r h; simp [generateScreenImage, h]
  · intro r h; simp [generateLogo, h]
  · intro d r h; simp [generateLogo, h]
  · intro s payload r hsplit hpay h; simp [editImage, hsplit, hpay, h]
  · intro s payload d r hsplit hpay h; simp [editImage, hsplit, hpay, h]

/-- Witness for C7: a data-bearing and a data-free response through each of
the three image operations. -/
theorem imageOps_inlineData_contract_witness :
    (firstInlineData exEmptyResponse = none ∧
      generateScreenImage "Login" (.ok exEmptyResponse) =
        .error ("Failed to generate UI for " ++ "Login" ++ ".")) ∧
    (firstInlineData exGoodImageResponse = some "QUJD" ∧
      generateScreenImage "Login" (.ok exGoodImageResponse) =
        .ok ("data:image/png;base64," ++ "QUJD")) ∧
    (generateLogo (.ok exEmptyResponse) = .error "Failed to generate a logo for the app.") ∧
    (generateLogo (.ok exGoodImageResponse) = .ok ("data:image/png;base64," ++ "QUJD")) ∧
    ((jsSplit ',' "img,QUJD")[1]? = some "QUJD" ∧ "QUJD" ≠ "" ∧
      editImage "img,QUJD" (.ok exEmptyResponse) =
        .error "Failed to edit the image with the provided prompt.") ∧
    (editImage "img,QUJD" (.ok exGoodImageResponse) =
      .ok ("data:image/png;base64," ++ "QUJD")) :=
  ⟨⟨rfl, imageOps_inlineData_contract.1 "Login" exEmptyResponse rfl⟩,
   ⟨rfl, imageOps_inlineData_contract.2.1 "Login" "QUJD" exGoodImageResponse rfl⟩,
   imageOps_inlineData_contract.2.2.1 exEmptyResponse rfl,
   imageOps_inlineData_contract.2.2.2.1 "QUJD" exGoodImageResponse rfl,
   ⟨by decide, by decide,
     imageOps_inlineData_contract.2.2.2.2.1 "img,QUJD" "QUJD" exEmptyResponse
       (by decide) (by decide) rfl⟩,
   imageOps_inlineData_contract.2.2.2.2.2 "img,QUJD" "QUJD" "QUJD" exGoodImageResponse
     (by decide) (by decide) rfl⟩

/-- C9: every successfully returned code string is the program-assembled
template: the React code starts with the React import line and wraps the
fence-stripped output, indented four spaces, in a component named by the
alphanumeric-filtered screen name; the Flutter code starts with the material
package import line followed by the fence-stripped output. -/
theorem generateScreenCode_import_preamble :
    (∀ name text code, generateScreenCodeReact name (.ok text) = .ok code →
      code = "import React from \x27react\x27;\n\nconst " ++ sanitizeComponentName name ++
        " = () => \x7b\n  return (\n" ++ indentLines (cleanCode "jsx" text) ++
        "\n  );\n\x7d;\n\nexport default " ++ sanitizeComponentName name ++ ";\n" ∧
      List.IsPrefix ("import React from \x27react\x27;").data code.data) ∧
    (∀ name text code, generateScreenCodeFlutter name (.ok text) = .ok code →
      code = "import \x27package:flutter/material.dart\x27;\n\n" ++ cleanCode "dart" text ++ "\n" ∧
      List.IsPrefix ("import \x27package:flutter/material.dart\x27;").data code.data) := by
  constructor
  · intro name text code h
    simp only [generateScreenCodeReact] at h
    split at h
    · exact absurd h (by simp)
    · have hcode :
          code = buildReactComponent (sanitizeComponentName name) (cleanCode "jsx" text) :=
        (Except.ok.inj h).symm
      subst hcode
      refine ⟨rfl, ?_⟩
      have h1 : List.IsPrefix ("import React from \x27react\x27;").data
          ("import React from \x27react\x27;\n\nconst ").data := by decide
      have h2 : List.IsPrefix ("import React from \x27react\x27;\n\nconst ").data
          (buildReactComponent (sanitizeComponentName name) (cleanCode "jsx" text)).data := by
        simp [buildReactComponent, String.data_append]
      exact h1.trans h2
  · intro name text code h
    simp only [generateScreenCodeFlutter] at h
    split at h
    · exact absurd h (by simp)
    · have hcode : code = buildFlutterWidget (cleanCode "dart" text) :=
        (Except.ok.inj h).symm
      subst hcode
      refine ⟨rfl, ?_⟩
      have h1 : List.IsPrefix ("import \x27package:flutter/material.dart\x27;").data
          ("import \x27package:flutter/material.dart\x27;\n\n").data := by decide
      have h2 : List.IsPrefix ("import \x27package:flutter/material.dart\x27;\n\n").data
          (buildFlutterWidget (cleanCode "dart" text)).data := by
        simp [buildFlutterWidget, String.data_append]
      exact h1.trans h2

/-- Witness for C9 at a long fenced reply for the screen `"Login Screen"`. -/
theorem generateScreenCode_import_preamble_witness :
    (generateScreenCodeReact "Login Screen" (.ok exReactText) = .ok exReactCode ∧
      exReactCode = "import React from \x27react\x27;\n\nconst " ++
        sanitizeComponentName "Login Screen" ++ " = () => \x7b\n  return (\n" ++
        indentLines (cleanCode "jsx" exReactText) ++
        "\n  );\n\x7d;\n\nexport default " ++ sanitizeComponentName "Login Screen" ++ ";\n" ∧
      List.IsPrefix ("import React from \x27react\x27;").data exReactCode.data) ∧
    (generateScreenCodeFlutter "Login Screen" (.ok exFlutterText) = .ok exFlutterCode ∧
      exFlutterCode = "import \x27package:flutter/material.dart\x27;\n\n" ++
        cleanCode "dart" exFlutterText ++ "\n" ∧
      List.IsPrefix ("import \x27package:flutter/material.dart\x27;").data exFlutterCode.data) :=
  ⟨⟨rfl, generateScreenCode_import_preamble.1 "Login Screen" exReactText exReactCode rfl⟩,
   ⟨rfl, generateScreenCode_import_preamble.2 "Login Screen" exFlutterText exFlutterCode rfl⟩⟩

/-- C10: when the input's split on commas has no non-empty payload at index 1,
`editImage` throws the invalid-data error for every model response — the
guard fires before any request. -/
theorem editImage_invalid_base64_guard (s : String)
    (hnopayload : ((jsSplit ',' s).drop 1).all (fun seg => seg == "") = true) :
    ∀ resp, editImage s resp = .error "Invalid base64 image data provided." := by
  intro resp
  rcases hsplit : jsSplit ',' s with _ | ⟨a, _ | ⟨b, rest2⟩⟩
  · simp [editImage, hsplit]
  · simp [editImage, hsplit]
  · have hb : b = "" := by
      rw [hsplit] at hnopayload
      simp [List.all_eq_true] at hnopayload
      exact hnopayload.1
    simp [editImage, hsplit, hb]

/-- Witness for C10 at an input with no comma. -/
theorem editImage_invalid_base64_guard_witness :
    ((jsSplit ',' "nocomma").drop 1).all (fun seg => seg == "") = true ∧
    editImage "nocomma" (.ok exEmptyResponse) = .error "Invalid base64 image data provided." :=
  ⟨by decide, editImage_invalid_base64_guard "nocomma" (by decide) (.ok exEmptyResponse)⟩

/-! ## C1, C2, C3, C8 -/

/-- C1: for a non-empty batch, `generateAppScreens` fulfills, classifies
exactly the screens whose `Promise.all` rejects as failed (one recorded reason
per failed screen), keeps every non-failed screen's record among the
successes, and in particular a batch with exactly one failed screen yields
`N - 1` successes and exactly one failure reason. -/
theorem generateAppScreens_partitions_failures
    (names : List String) (calls : Nat → ScreenResponses) (hne : names ≠ []) :
    ∃ res, generateAppScreens (.ok (some names)) calls = .ok res ∧
      res.failedScreenReasons.length = (failedIdx calls 0 names).length ∧
      res.successfulScreens.length + res.failedScreenReasons.length = names.length ∧
      (∀ j (h : j < names.length), j ∉ failedIdx calls 0 names →
        ∃ rec, generateScreen (names.get ⟨j, h⟩) (calls j) = .ok rec ∧
          rec ∈ res.successfulScreens) ∧
      ((failedIdx calls 0 names).length = 1 →
        res.successfulScreens.length = names.length - 1 ∧
          res.failedScreenReasons.length = 1) := by
  refine ⟨collectResults (screenResultsFrom calls 0 names),
    generateAppScreens_ok names calls hne, ?_, ?_, ?_, ?_⟩
  · rw [collectResults_failed_length, failedIdx_length]
  · rw [collectResults_length, screenResultsFrom_length]
  · intro j h hnot
    have := mem_successes_of_not_failed calls names 0 j h (by simpa using hnot)
    simpa using this
  · intro h1
    have hsum : (collectResults (screenResultsFrom calls 0 names)).successfulScreens.length +
        (collectResults (screenResultsFrom calls 0 names)).failedScreenReasons.length =
        names.length := by
      rw [collectResults_length, screenResultsFrom_length]
    have hfail : (collectResults (screenResultsFrom calls 0 names)).failedScreenReasons.length =
        1 := by
      rw [collectResults_failed_length, failedIdx_length] at *
      omega
    exact ⟨by omega, hfail⟩

/-- Witness for C1: two screens of which exactly the second one's calls
reject. -/
theorem generateAppScreens_partitions_failures_witness :
    wNames ≠ [] ∧
    (∃ res, generateAppScreens (.ok (some wNames)) wCallsOneFail = .ok res ∧
      res.failedScreenReasons.length = (failedIdx wCallsOneFail 0 wNames).length ∧
      res.successfulScreens.length + res.failedScreenReasons.length = wNames.length ∧
      (∀ j (h : j < wNames.length), j ∉ failedIdx wCallsOneFail 0 wNames →
        ∃ rec, generateScreen (wNames.get ⟨j, h⟩) (wCallsOneFail j) = .ok rec ∧
          rec ∈ res.successfulScreens) ∧
      ((failedIdx wCallsOneFail 0 wNames).length = 1 →
        res.successfulScreens.length = wNames.length - 1 ∧
          res.failedScreenReasons.length = 1)) :=
  ⟨by decide, generateAppScreens_partitions_failures wNames wCallsOneFail (by decide)⟩

/-- C2: a non-empty batch in which every screen's calls fulfill yields exactly
one successful record per screen name, in extraction order, each carrying that
screen's title and the image and two code outputs of its generators, with no
failure reason. -/
theorem generateAppScreens_all_success
    (names : List String) (calls : Nat → ScreenResponses) (hne : names ≠ [])
    (hok : ∀ j (h : j < names.length),
      isErr (generateScreen (names.get ⟨j, h⟩) (calls j)) = false) :
    ∃ res, generateAppScreens (.ok (some names)) calls = .ok res ∧
      res.failedScreenReasons = [] ∧
      res.successfulScreens.length = names.length ∧
      ∀ j (h : j < names.length) (h2 : j < res.successfulScreens.length),
        (res.successfulScreens.get ⟨j, h2⟩).title = names.get ⟨j, h⟩ ∧
        generateScreenImage (names.get ⟨j, h⟩) (calls j).image =
          .ok (res.successfulScreens.get ⟨j, h2⟩).imageUrl ∧
        generateScreenCodeReact (names.get ⟨j, h⟩) (calls j).react =
          .ok (res.successfulScreens.get ⟨j, h2⟩).code.react ∧
        generateScreenCodeFlutter (names.get ⟨j, h⟩) (calls j).flutter =
          .ok (res.successfulScreens.get ⟨j, h2⟩).code.flutter := by
  have hok0 : ∀ j (h : j < names.length),
      isErr (generateScreen (names.get ⟨j, h⟩) (calls (0 + j))) = false := by
    intro j h
    simpa using hok j h
  obtain ⟨h1, h2, h3⟩ := collect_all_ok calls names 0 hok0
  refine ⟨collectResults (screenResultsFrom calls 0 names),
    generateAppScreens_ok names calls hne, h1, h2, ?_⟩
  intro j h hlt
  have hgen := h3 j h hlt
  rw [Nat.zero_add] at hgen
  exact generateScreen_ok_elim _ _ _ hgen

/-- Witness for C2: two screens whose calls all fulfill. -/
theorem generateAppScreens_all_success_witness :
    wNames ≠ [] ∧
    (∀ j (h : j < wNames.length),
      isErr (generateScreen (wNames.get ⟨j, h⟩) (wCallsAllOk j)) = false) ∧
    (∃ res, generateAppScreens (.ok (some wNames)) wCallsAllOk = .ok res ∧
      res.failedScreenReasons = [] ∧
      res.successfulScreens.length = wNames.length ∧
      ∀ j (h : j < wNames.length) (h2 : j < res.successfulScreens.length),
        (res.successfulScreens.get ⟨j, h2⟩).title = wNames.get ⟨j, h⟩ ∧
        generateScreenImage (wNames.get ⟨j, h⟩) (wCallsAllOk j).image =
          .ok (res.successfulScreens.get ⟨j, h2⟩).imageUrl ∧
        generateScreenCodeReact (wNames.get ⟨j, h⟩) (wCallsAllOk j).react =
          .ok (res.successfulScreens.get ⟨j, h2⟩).code.react ∧
        generateScreenCodeFlutter (wNames.get ⟨j, h⟩) (wCallsAllOk j).flutter =
          .ok (res.successfulScreens.get ⟨j, h2⟩).code.flutter) :=
  ⟨by decide, by decide,
    generateAppScreens_all_success wNames wCallsAllOk (by decide) (by decide)⟩

/-- C8: for every non-empty batch, each screen is accounted for exactly once:
successes plus failure reasons add up to the number of extracted names. -/
theorem generateAppScreens_accounts_every_screen
    (names : List String) (calls : Nat → ScreenResponses) (hne : names ≠ []) :
    ∃ res, generateAppScreens (.ok (some names)) calls = .ok res ∧
      res.successfulScreens.length + res.failedScreenReasons.length = names.length := by
  refine ⟨collectResults (screenResultsFrom calls 0 names),
    generateAppScreens_ok names calls hne, ?_⟩
  rw [collectResults_length, screenResultsFrom_length]

/-- Witness for C8 at a two-screen batch with one failing screen. -/
theorem generateAppScreens_accounts_every_screen_witness :
    wNames ≠ [] ∧
    (∃ res, generateAppScreens (.ok (some wNames)) wCallsOneFail = .ok res ∧
      res.successfulScreens.length + res.failedScreenReasons.length = wNames.length) :=
  ⟨by decide, generateAppScreens_accounts_every_screen wNames wCallsOneFail (by decide)⟩

/-- C3: when every screen's calls reject, the batch fulfills with zero
successes and one reason per screen, and `handleGenerate` then displays
nothing and raises the aggregate failure; when at least one screen succeeded,
the successes are displayed and a partial-failure toast is raised without
blocking that display. -/
theorem generateAppScreens_aggregate_error_policy :
    (∀ (names : List String) (calls : Nat → ScreenResponses) (logoUrl : String),
      names ≠ [] →
      (∀ j (h : j < names.length),
        isErr (generateScreen (names.get ⟨j, h⟩) (calls j)) = true) →
      ∃ res, generateAppScreens (.ok (some names)) calls = .ok res ∧
        res.successfulScreens = [] ∧
        res.failedScreenReasons.length = names.length ∧
        (handleGenerate (.ok res) (.ok logoUrl)).displayedScreens = [] ∧
        (aggregateFailureMessage, true) ∈ (handleGenerate (.ok res) (.ok logoUrl)).notifications) ∧
    (∀ (sr : GenerateAppScreensResult) (logoUrl : String),
      sr.successfulScreens ≠ [] →
      (handleGenerate (.ok sr) (.ok logoUrl)).displayedScreens = sr.successfulScreens ∧
      (sr.failedScreenReasons ≠ [] →
        ("Could not generate some screens: " ++
            String.intercalate ", " (sr.failedScreenReasons.take 2), true) ∈
          (handleGenerate (.ok sr) (.ok logoUrl)).notifications)) := by
  constructor
  · intro names calls logoUrl hne hfail
    have hfail0 : ∀ j (h : j < names.length),
        isErr (generateScreen (names.get ⟨j, h⟩) (calls (0 + j))) = true := by
      intro j h
      simpa using hfail j h
    have hallerr := screenResultsFrom_all_err calls names 0 hfail0
    have hsucc : (collectResults (screenResultsFrom calls 0 names)).successfulScreens = [] :=
      collect_all_err _ hallerr
    have hlen : (collectResults (screenResultsFrom calls 0 names)).failedScreenReasons.length =
        names.length := by
      have hsum := collectResults_length (screenResultsFrom calls 0 names)
      rw [screenResultsFrom_length] at hsum
      rw [hsucc] at hsum
      simpa using hsum
    have hpos : 0 < (collectResults (screenResultsFrom calls 0 names)).failedScreenReasons.length := by
      rw [hlen]
      cases names with
      | nil => exact absurd rfl hne
      | cons a l => simp
    refine ⟨collectResults (screenResultsFrom calls 0 names),
      generateAppScreens_ok names calls hne, hsucc, hlen, ?_, ?_⟩
    · simp [handleGenerate, hsucc]
    · simp [handleGenerate, hsucc, hpos]
  · intro sr logoUrl hs
    have hslen : 0 < sr.successfulScreens.length := List.length_pos.mpr hs
    constructor
    · rfl
    · intro hf
      have hflen : 0 < sr.failedScreenReasons.length := List.length_pos.mpr hf
      have hsne : sr.successfulScreens.length ≠ 0 := Nat.pos_iff_ne_zero.mp hslen
      simp [handleGenerate, hslen, hflen, hsne]

/-- Witness for C3: an all-failing two-screen batch, and a partial result with
one success and one failure. -/
theorem generateAppScreens_aggregate_error_policy_witness :
    (wNames ≠ [] ∧
      (∀ j (h : j < wNames.length),
        isErr (generateScreen (wNames.get ⟨j, h⟩) (wCallsAllFail j)) = true) ∧
      (∃ res, generateAppScreens (.ok (some wNames)) wCallsAllFail = .ok res ∧
        res.successfulScreens = [] ∧
        res.failedScreenReasons.length = wNames.length ∧
        (handleGenerate (.ok res) (.ok "logo-url")).displayedScreens = [] ∧
        (aggregateFailureMessage, true) ∈
          (handleGenerate (.ok res) (.ok "logo-url")).notifications)) ∧
    ((⟨[wScreen], ["Failed to generate UI for Login Screen."]⟩ :
        GenerateAppScreensResult).successfulScreens ≠ [] ∧
      (handleGenerate (.ok ⟨[wScreen], ["Failed to generate UI for Login Screen."]⟩)
          (.ok "logo-url")).displayedScreens = [wScreen] ∧
      ((⟨[wScreen], ["Failed to generate UI for Login Screen."]⟩ :
          GenerateAppScreensResult).failedScreenReasons ≠ [] →
        ("Could not generate some screens: " ++
            String.intercalate ", "
              ((⟨[wScreen], ["Failed to generate UI for Login Screen."]⟩ :
                GenerateAppScreensResult).failedScreenReasons.take 2), true) ∈
          (handleGenerate (.ok ⟨[wScreen], ["Failed to generate UI for Login Screen."]⟩)
            (.ok "logo-url")).notifications)) :=
  ⟨⟨by decide, by decide,
    generateAppScreens_aggregate_error_policy.1 wNames wCallsAllFail "logo-url"
      (by decide) (by decide)⟩,
   ⟨by decide,
    (generateAppScreens_aggregate_error_policy.2
        ⟨[wScreen], ["Failed to generate UI for Login Screen."]⟩ "logo-url" (by decide)).1,
    (generateAppScreens_aggregate_error_policy.2
        ⟨[wScreen], ["Failed to generate UI for Login Screen."]⟩ "logo-url" (by decide)).2⟩⟩

end Mockup
